import Mathlib

/-!
Verification of the Chord + Gossip overlay node (Rust sources under src/).

The development shallowly embeds the data model and the operations of the
node: ring arithmetic (src/node/src/chord/mod.rs), the Chord and Gossip
wire-protocol codecs (src/node/src/chord/protocol.rs,
src/node/src/gossip/protocol.rs), the Chord request handlers
(src/node/src/chord/request_handler.rs) and the Gossip request handler
(src/node/src/gossip/request_handler.rs).

Conventions:
  - Rust u128 is modelled as Nat together with explicit bounds
    (RING_MAX_POSITION = 2^128 - 1) where overflow or the u128 range
    matters.
  - Rust String is modelled as List Char.
  - A [u8; 16] identifier is modelled as List (Fin 256); well-formedness
    of a Node records that the list has length 16.
  - Stateful handlers are modelled by explicit state passing: a handler
    that mutates a shared slot becomes a function returning the new slot
    content together with the response.
  - A reachable Rust panic (Option::unwrap on None, Result::unwrap on Err)
    is modelled as a distinguished outcome (Option.none for the Chord
    find-successor handler, ParseResult.panicked for the Gossip codec).
  - Network calls made by a handler are modelled as oracle function
    parameters, and the std SocketAddr Display/FromStr pair is modelled
    abstractly by parameters (displayAddr, parseAddr) over an address
    type.
-/

/-! ### Ring constants (src/node/src/chord/mod.rs lines 19-22) -/

def RING_BIT_LENGTH : Nat := 128

def RING_BYTE_LENGTH : Nat := RING_BIT_LENGTH / 8

def SUCCESSOR_LIST_LENGTH : Nat := 5

/-- u128::MAX. -/
def RING_MAX_POSITION : Nat := 2 ^ 128 - 1

/-! ### Node (src/node/src/chord/mod.rs lines 27-108)

`Node` is the pair of a 16-byte identifier and a public socket address.
The address type is abstract (`Addr`); the Rust source uses
std::net::SocketAddr. -/

structure Node (Addr : Type) where
  id : List (Fin 256)
  publicAddr : Addr
deriving DecidableEq

/-- u128::from_be_bytes over the identifier bytes
(`Node::get_ring_position`). -/
def Node.getRingPosition {Addr : Type} (self : Node Addr) : Nat :=
  self.id.foldl (fun acc b => acc * 256 + b.val) 0

/-- The body of `Node::is_position_stictly_between`, expressed on the
node's ring position.  The source first tests `start > end`, then
`start < end`, and otherwise returns false; in the wrap branch it tests
`pos > start && pos <= RING_MAX_POSITION || pos < end`. -/
def stictlyBetweenPos (pos start ed : Nat) : Bool :=
  if start > ed then
    (decide (pos > start) && decide (pos ≤ RING_MAX_POSITION)) || decide (pos < ed)
  else if start < ed then
    decide (pos > start) && decide (pos < ed)
  else
    false

/-- `Node::is_position_stictly_between` (src/node/src/chord/mod.rs
lines 95-107): every identifier comparison goes through
`get_ring_position()`. -/
def Node.isPositionStictlyBetween {Addr : Type} (self : Node Addr)
    (start ed : Nat) : Bool :=
  stictlyBetweenPos self.getRingPosition start ed

/-- Modelled from the spec: the reference strictly-between predicate of
spec.md section 3 ("if start < end, start < pos < end; if start > end,
pos > start OR pos < end (wrap); if start == end, false"). -/
def specStrictlyBetween (pos start ed : Nat) : Bool :=
  if start < ed then
    decide (start < pos) && decide (pos < ed)
  else if start > ed then
    decide (pos > start) || decide (pos < ed)
  else
    false

/-- A node with a given one-byte identifier, used for concrete ring
positions below 256 in examples. -/
def natNode (b : Fin 256) (a : Nat) : Node Nat := ⟨[b], a⟩

theorem natNode_pos (b : Fin 256) (a : Nat) :
    (natNode b a).getRingPosition = b.val := by
  simp [natNode, Node.getRingPosition]

/-- C3 counterexample: with argument order (pos, start, end) the code
evaluates strictly_between(5, 10, 3) to false, not true as the spec's
first boundary example states, and strictly_between(2, 10, 3) to true,
not false as the spec's second boundary example states. -/
theorem strictly_between_boundary_examples_counterexample :
    (natNode 5 0).isPositionStictlyBetween 10 3 = false ∧
      (natNode 2 0).isPositionStictlyBetween 10 3 = true := by
  constructor <;> decide

/-- C3 (amended): with argument order (pos, start, end) the four boundary
evaluations of the strictly-between predicate are:
strictly_between(5, 10, 3) = false, strictly_between(2, 10, 3) = true
(wrap), strictly_between(3, 10, 3) = false, and
strictly_between(4, 3, 10) = true. -/
theorem strictly_between_boundary_examples :
    (natNode 5 0).isPositionStictlyBetween 10 3 = false ∧
      (natNode 2 0).isPositionStictlyBetween 10 3 = true ∧
      (natNode 3 0).isPositionStictlyBetween 10 3 = false ∧
      (natNode 4 0).isPositionStictlyBetween 3 10 = true := by
  refine ⟨?_, ?_, ?_, ?_⟩ <;> decide

/-- C7: on the u128 range (pos ≤ RING_MAX_POSITION) the code's
strictly-between predicate agrees with the spec's reference definition
at every (pos, start, end), and strictly_between(p, a, a) is false for
every p and a. -/
theorem stictlyBetweenPos_eq_spec :
    (∀ pos start ed : Nat, pos ≤ RING_MAX_POSITION →
        stictlyBetweenPos pos start ed = specStrictlyBetween pos start ed) ∧
      (∀ p a : Nat, stictlyBetweenPos p a a = false) := by
  constructor
  · intro pos start ed hpos
    unfold stictlyBetweenPos specStrictlyBetween
    rcases Nat.lt_trichotomy start ed with h | h | h
    · simp [h, Nat.lt_asymm h]
    · simp [h]
    · simp [h, Nat.lt_asymm h, hpos]
  · intro p a
    unfold stictlyBetweenPos
    simp

/-- C7 witness: concrete instance pos = 4, start = 3, end = 10 with the
u128 bound discharged. -/
theorem stictlyBetweenPos_eq_spec_witness :
    stictlyBetweenPos 4 3 10 = specStrictlyBetween 4 3 10 :=
  stictlyBetweenPos_eq_spec.1 4 3 10 (by decide)

/-! ### Gossip data model (src/node/src/gossip/mod.rs lines 10-14) -/

/-- The gossip record: `struct State { data: String, timestamp: u128 }`. -/
structure State where
  data : List Char
  timestamp : Nat
deriving DecidableEq

/-! ### Gossip protocol abstractions (src/node/src/gossip/protocol.rs) -/

inductive GossipRequest where
  | UpdateData (data : List Char)
  | ShareData (s : Option State)
deriving DecidableEq

inductive GossipResponse where
  | Ignore
  | ResponseWithData (s : State)
deriving DecidableEq

/-! ### Gossip request handler (src/node/src/gossip/request_handler.rs
lines 26-58)

`share_data_request_handler` reads the shared slot, possibly overwrites
it, and returns a response.  It is modelled as a pure function from the
prior slot content and the received value to the new slot content and
the response.  The source's chain of `is_none`/`is_some` tests with
`unwrap`s is rendered as the equivalent match on the two options; note
`received.timestamp > local.timestamp` is written as
`local.timestamp < received.timestamp`. -/

def share_data_request_handler (selfNodeGossipData : Option State)
    (receivedData : Option State) : Option State × GossipResponse :=
  match receivedData, selfNodeGossipData with
  | none, some l => (some l, .ResponseWithData l)
  | some r, none => (some r, .Ignore)
  | some r, some l =>
    if l.timestamp < r.timestamp then (some r, .Ignore)
    else if r.timestamp < l.timestamp then (some l, .ResponseWithData l)
    else (some l, .Ignore)
  | none, none => (none, .Ignore)

/-- C2: share_data_request_handler realises exactly the lattice-merge
table of the spec: each (received, local) pair yields precisely the
stated write action (first component: the slot content afterwards) and
the stated response (second component). -/
theorem share_data_request_handler_merge_table :
    (share_data_request_handler none none = (none, .Ignore)) ∧
      (∀ v : State,
        share_data_request_handler (some v) none = (some v, .ResponseWithData v)) ∧
      (∀ v : State,
        share_data_request_handler none (some v) = (some v, .Ignore)) ∧
      (∀ r l : State,
        share_data_request_handler (some l) (some r) =
          if l.timestamp < r.timestamp then (some r, .Ignore)
          else if r.timestamp < l.timestamp then (some l, .ResponseWithData l)
          else (some l, .Ignore)) := by
  refine ⟨rfl, fun v => rfl, fun v => rfl, fun r l => rfl⟩

/-- The slot content after a share-data merge. -/
def mergeSlot (localSlot receivedData : Option State) : Option State :=
  (share_data_request_handler localSlot receivedData).1

/-- C6 counterexample: with equal timestamps but different data, the two
merge directions leave different local values, so the merge is not
commutative for arbitrary pairs of states. -/
theorem gossip_merge_commutative_counterexample :
    mergeSlot (some ⟨['b'], 5⟩) (some ⟨['a'], 5⟩) ≠
      mergeSlot (some ⟨['a'], 5⟩) (some ⟨['b'], 5⟩) := by
  decide

/-- C6 (amended): the gossip merge is commutative whenever the two
timestamps differ — both directions leave the local slot holding the
higher-timestamped value — the None cases commute unconditionally, and
the merge is idempotent: merging a state with itself (incoming equal to
local) causes no write and answers IGNORE. -/
theorem gossip_merge_commutative_idempotent :
    (∀ r l : State, r.timestamp ≠ l.timestamp →
        mergeSlot (some l) (some r) = mergeSlot (some r) (some l) ∧
          mergeSlot (some l) (some r) =
            some (if l.timestamp < r.timestamp then r else l)) ∧
      (∀ s : Option State, mergeSlot none s = mergeSlot s none) ∧
      (∀ s : Option State, share_data_request_handler s s = (s, .Ignore)) := by
  refine ⟨?_, ?_, ?_⟩
  · intro r l hne
    rcases Nat.lt_trichotomy l.timestamp r.timestamp with h | h | h
    · constructor <;>
        simp [mergeSlot, share_data_request_handler, h, Nat.lt_asymm h]
    · exact absurd h.symm hne
    · constructor <;>
        simp [mergeSlot, share_data_request_handler, h, Nat.lt_asymm h,
          Nat.not_lt_of_lt h]
  · intro s
    cases s <;> rfl
  · intro s
    cases s with
    | none => rfl
    | some v => simp [share_data_request_handler]

/-- C6 witness: concrete states with distinct timestamps, both merge
directions converge on the timestamp-6 value. -/
theorem gossip_merge_commutative_idempotent_witness :
    mergeSlot (some ⟨['b'], 5⟩) (some ⟨['a'], 6⟩) =
        mergeSlot (some ⟨['a'], 6⟩) (some ⟨['b'], 5⟩) ∧
      mergeSlot (some ⟨['b'], 5⟩) (some ⟨['a'], 6⟩) =
        some (if (5 : Nat) < 6 then (⟨['a'], 6⟩ : State) else ⟨['b'], 5⟩) :=
  gossip_merge_commutative_idempotent.1 ⟨['a'], 6⟩ ⟨['b'], 5⟩ (by decide)

/-- C10: the share-data handler never lowers the stored timestamp (the
post-state either keeps the prior value or is exactly the received
value, and a populated slot never loses its entry nor sees its timestamp
decrease). -/
theorem share_data_request_handler_timestamp_monotone :
    ∀ localSlot receivedData : Option State,
      ((share_data_request_handler localSlot receivedData).1 = localSlot ∨
        (share_data_request_handler localSlot receivedData).1 = receivedData) ∧
      (match localSlot, (share_data_request_handler localSlot receivedData).1 with
        | some l, some p => l.timestamp ≤ p.timestamp
        | some _, none => False
        | none, _ => True) := by
  intro localSlot receivedData
  cases receivedData with
  | none =>
    cases localSlot with
    | none => exact ⟨Or.inl rfl, trivial⟩
    | some l => exact ⟨Or.inl rfl, Nat.le_refl _⟩
  | some r =>
    cases localSlot with
    | none => exact ⟨Or.inr rfl, trivial⟩
    | some l =>
      by_cases h1 : l.timestamp < r.timestamp
      · refine ⟨Or.inr ?_, ?_⟩ <;>
          simp [share_data_request_handler, h1]
        omega
      · by_cases h2 : r.timestamp < l.timestamp
        · refine ⟨Or.inl ?_, ?_⟩ <;>
            simp [share_data_request_handler, h1, h2]
        · refine ⟨Or.inl ?_, ?_⟩ <;>
            simp [share_data_request_handler, h1, h2]

/-! ### Chord protocol abstractions (src/node/src/chord/protocol.rs
lines 13-20 and 441-448)

The successor list has Rust type [Node; 5]; it is modelled as a record
of its five entries, iterated in index order by `toList`. -/

structure SuccessorList5 (Addr : Type) where
  s0 : Node Addr
  s1 : Node Addr
  s2 : Node Addr
  s3 : Node Addr
  s4 : Node Addr
deriving DecidableEq

def SuccessorList5.toList {Addr : Type} (l : SuccessorList5 Addr) :
    List (Node Addr) :=
  [l.s0, l.s1, l.s2, l.s3, l.s4]

inductive ChordResponse (Addr : Type) where
  | Successor (n : Node Addr)
  | SuccessorList (l : SuccessorList5 Addr)
  | Predecessor (p : Option (Node Addr))
  | Active
  | Error (msg : List Char)
deriving DecidableEq

inductive ChordRequest (Addr : Type) where
  | FindSuccessorOfNode (n : Node Addr)
  | GetSuccessorList
  | GetPredecessor
  | NotificationBy (n : Node Addr)
  | CheckNode
deriving DecidableEq

/-! ### Chord request handlers (src/node/src/chord/request_handler.rs)

`find_successor_of_node_request_handler` (lines 75-135) performs two
kinds of network calls through src/node/src/chord/request_initiator.rs:
the CHECK_NODE liveness probe and the forwarded FIND_SUCCESSOR_OF_NODE
request.  Both are modelled as oracle parameters.  The finger table
[Option<Node>; 128] is modelled as a list of optional nodes (its length
plays no role in the computation).  The final
`closest_preceding_node_to_target.unwrap()` panics when the search loop
found no candidate; that panic is modelled by the result `none`. -/

def find_successor_of_node_request_handler {Addr : Type}
    (checkRemoteNode : Addr → ChordResponse Addr)
    (findSuccessorOfNode : Node Addr → Addr → ChordResponse Addr)
    (selfNode : Node Addr)
    (selfNodeSuccessorList : SuccessorList5 Addr)
    (selfNodeFingerTable : List (Option (Node Addr)))
    (targetNode : Node Addr) : Option (ChordResponse Addr) :=
  let selfNodeSuccessor := selfNodeSuccessorList.s0
  if targetNode.getRingPosition = selfNode.getRingPosition ∨
      targetNode.getRingPosition = selfNodeSuccessor.getRingPosition then
    some (.Error ("the node's identifier already exists in the network".toList))
  else if selfNode.getRingPosition = selfNodeSuccessor.getRingPosition then
    some (.Successor selfNodeSuccessor)
  else if targetNode.isPositionStictlyBetween selfNode.getRingPosition
      selfNodeSuccessor.getRingPosition then
    some (.Successor selfNodeSuccessor)
  else
    let table :=
      if targetNode.isPositionStictlyBetween selfNode.getRingPosition
          selfNodeSuccessorList.s4.getRingPosition then
        selfNodeSuccessorList.toList
      else
        selfNodeFingerTable.filterMap id
    let closestPrecedingNodeToTarget :=
      table.reverse.find? (fun entry =>
        entry.isPositionStictlyBetween selfNode.getRingPosition
            targetNode.getRingPosition &&
          (match checkRemoteNode entry.publicAddr with
            | .Active => true
            | _ => false))
    match closestPrecedingNodeToTarget with
    | some n => some (findSuccessorOfNode targetNode n.publicAddr)
    | none => none

/-- `node_notification_request_handler` (lines 147-173), with the shared
predecessor slot passed and returned explicitly.  The response always
carries the successor-list snapshot. -/
def node_notification_request_handler {Addr : Type}
    (selfNode : Node Addr)
    (selfNodePredecessor : Option (Node Addr))
    (selfNodeSuccessorList : SuccessorList5 Addr)
    (externalNode : Node Addr) :
    Option (Node Addr) × ChordResponse Addr :=
  (match selfNodePredecessor with
    | some predecessor =>
      if predecessor.getRingPosition = selfNode.getRingPosition ∨
          externalNode.isPositionStictlyBetween predecessor.getRingPosition
            selfNode.getRingPosition then
        some externalNode
      else
        selfNodePredecessor
    | none => some externalNode,
   .SuccessorList selfNodeSuccessorList)

/-- C8: the find-successor handler answers the identifier-collision error
whenever the target's position equals the local node's or the first
successor's (this test comes first), and — when no collision — answers
SUCCESSOR(successor_list[0]) in the single-node case or when the target
lies strictly between self and successor_list[0]; in those cases the
answer is the same for every liveness and forwarding oracle, so no peer
is contacted. -/
theorem find_successor_of_node_early_cases {Addr : Type}
    (checkRemoteNode : Addr → ChordResponse Addr)
    (findSuccessorOfNode : Node Addr → Addr → ChordResponse Addr)
    (selfNode : Node Addr) (succList : SuccessorList5 Addr)
    (fingerTable : List (Option (Node Addr))) (targetNode : Node Addr) :
    (targetNode.getRingPosition = selfNode.getRingPosition ∨
        targetNode.getRingPosition = succList.s0.getRingPosition →
      find_successor_of_node_request_handler checkRemoteNode
          findSuccessorOfNode selfNode succList fingerTable targetNode =
        some (.Error
          ("the node's identifier already exists in the network".toList))) ∧
    (¬ (targetNode.getRingPosition = selfNode.getRingPosition ∨
          targetNode.getRingPosition = succList.s0.getRingPosition) →
      selfNode.getRingPosition = succList.s0.getRingPosition ∨
        targetNode.isPositionStictlyBetween selfNode.getRingPosition
          succList.s0.getRingPosition = true →
      find_successor_of_node_request_handler checkRemoteNode
          findSuccessorOfNode selfNode succList fingerTable targetNode =
        some (.Successor succList.s0)) := by
  constructor
  · intro h
    simp [find_successor_of_node_request_handler, h]
  · intro h1 h2
    rw [not_or] at h1
    rcases h2 with h2 | h2 <;>
      simp [find_successor_of_node_request_handler, h1.1, h1.2, h2]

/-- C8 witness: with one-byte identifiers 0 (self), 10 (successors) and a
dead-peer oracle, target 10 hits the collision error and target 5 (which
is strictly between 0 and 10) receives SUCCESSOR of the first successor
without any peer contact. -/
theorem find_successor_of_node_early_cases_witness :
    (@find_successor_of_node_request_handler Nat
        (fun _ => .Error []) (fun _ _ => .Active)
        (natNode 0 0)
        ⟨natNode 10 1, natNode 10 1, natNode 10 1, natNode 10 1, natNode 10 1⟩
        [some (natNode 10 1)] (natNode 10 2) =
      some (.Error
        ("the node's identifier already exists in the network".toList))) ∧
    (@find_successor_of_node_request_handler Nat
        (fun _ => .Error []) (fun _ _ => .Active)
        (natNode 0 0)
        ⟨natNode 10 1, natNode 10 1, natNode 10 1, natNode 10 1, natNode 10 1⟩
        [some (natNode 10 1)] (natNode 5 2) =
      some (.Successor (natNode 10 1))) :=
  ⟨(find_successor_of_node_early_cases _ _ _ _ _ _).1 (by decide),
   (find_successor_of_node_early_cases _ _ _ _ _ _).2 (by decide)
     (by right; decide)⟩

/-- C1 (code behaviour at the failing input): with self at position 0,
all successor-list entries at position 10, finger slot 0 holding the
position-10 node and every other slot empty, and a target at position 20,
the delegation step is reached; when every CHECK_NODE probe fails (the
oracle never answers ACTIVE), the handler dereferences the empty
candidate — modelled as the outcome none — instead of returning
ERROR("no reachable preceding node"). -/
theorem find_successor_no_live_candidate_panics :
    @find_successor_of_node_request_handler Nat
        (fun _ => .Error []) (fun _ _ => .Active)
        (natNode 0 0)
        ⟨natNode 10 1, natNode 10 1, natNode 10 1, natNode 10 1, natNode 10 1⟩
        (some (natNode 10 1) :: List.replicate 127 none)
        (natNode 20 2) = none ∧
      (none : Option (ChordResponse Nat)) ≠
        some (.Error ("no reachable preceding node".toList)) := by
  constructor
  · decide
  · intro h
    exact Option.noConfusion h

/-- C9: the notification handler replaces the predecessor slot with the
external node exactly when the slot is empty, or the held predecessor
sits at the local node's own position, or the external node's position
is strictly between the predecessor's and the local node's; in every
case the response is the successor-list snapshot. -/
theorem node_notification_request_handler_spec {Addr : Type}
    (selfNode : Node Addr) (pred : Option (Node Addr))
    (succList : SuccessorList5 Addr) (externalNode : Node Addr) :
    node_notification_request_handler selfNode pred succList externalNode =
      ((match pred with
        | none => some externalNode
        | some p =>
          if p.getRingPosition = selfNode.getRingPosition ∨
              externalNode.isPositionStictlyBetween p.getRingPosition
                selfNode.getRingPosition then
            some externalNode
          else
            some p),
       .SuccessorList succList) := by
  cases pred with
  | none => rfl
  | some p =>
    by_cases h : p.getRingPosition = selfNode.getRingPosition ∨
        externalNode.isPositionStictlyBetween p.getRingPosition
          selfNode.getRingPosition <;>
      simp [node_notification_request_handler, h]

/-! ### Text primitives

The wire protocol works on Rust Strings; they are modelled as List Char.
The anchored regular expressions of the source are transliterated into
direct parsers built from the following primitives; `matchLeft lit s`
consumes the literal `lit` at the front of `s`, `matchRight lit s`
removes it from the back. -/

def matchLeft : List Char → List Char → Option (List Char)
  | [], s => some s
  | _ :: _, [] => none
  | c :: p, d :: s => if c = d then matchLeft p s else none

def matchRight (suf s : List Char) : Option (List Char) :=
  (matchLeft suf.reverse s.reverse).map List.reverse

theorem matchLeft_append (p r : List Char) : matchLeft p (p ++ r) = some r := by
  induction p with
  | nil => rfl
  | cons c p ih => simp [matchLeft, ih]

theorem matchLeft_eq_some_iff {p s r : List Char} :
    matchLeft p s = some r ↔ s = p ++ r := by
  constructor
  · intro h
    induction p generalizing s with
    | nil => simpa [matchLeft] using h
    | cons c p ih =>
      cases s with
      | nil => simp [matchLeft] at h
      | cons d s =>
        by_cases hc : c = d
        · subst hc
          simp [matchLeft] at h
          simp [ih h]
        · simp [matchLeft, hc] at h
  · intro h
    subst h
    exact matchLeft_append p r

theorem matchRight_append (suf m : List Char) :
    matchRight suf (m ++ suf) = some m := by
  simp [matchRight, List.reverse_append, matchLeft_append]

/-- Rejection principle for a literal against text with a different
literal head: if the two literals disagree on their common prefix, the
match fails for every continuation. -/
theorem matchLeft_reject (p q rest : List Char)
    (h : p.take q.length ≠ q.take p.length) :
    matchLeft p (q ++ rest) = none := by
  cases hm : matchLeft p (q ++ rest) with
  | none => rfl
  | some r =>
    exfalso
    apply h
    have heq : q ++ rest = p ++ r := matchLeft_eq_some_iff.mp hm
    have h1 : (q ++ rest).take p.length = p := by
      rw [heq, List.take_left]
    have h2 : (q ++ rest).take q.length = q := List.take_left q rest
    calc p.take q.length = ((q ++ rest).take p.length).take q.length := by rw [h1]
      _ = (q ++ rest).take (min q.length p.length) := by rw [List.take_take]
      _ = (q ++ rest).take (min p.length q.length) := by rw [Nat.min_comm]
      _ = ((q ++ rest).take q.length).take p.length := by rw [List.take_take]
      _ = q.take p.length := by rw [h2]

/-- Rejection principle for an exact-equality check: text with head
literal `q` is never equal to a literal `L` that disagrees with `q` on
the first `q.length` characters. -/
theorem append_ne_lit (q rest L : List Char) (h : L.take q.length ≠ q) :
    q ++ rest ≠ L := by
  intro heq
  apply h
  rw [← heq, List.take_left]

theorem takeWhile_append_stop (p : Char → Bool) (l : List Char) (d : Char)
    (m : List Char) (hl : l.all p = true) (hd : p d = false) :
    (l ++ d :: m).takeWhile p = l ∧ (l ++ d :: m).dropWhile p = d :: m := by
  induction l with
  | nil => simp [List.takeWhile, List.dropWhile, hd]
  | cons c l ih =>
    simp only [List.all_cons, Bool.and_eq_true] at hl
    have := ih hl.2
    simp [List.takeWhile, List.dropWhile, hl.1, this.1, this.2]

/-! ### Character classes of the protocol regular expressions -/

def isDigitChar (c : Char) : Bool := '0' ≤ c && c ≤ '9'

/-- The class [0-9a-f] of the identifier captures. -/
def isHexLowerChar (c : Char) : Bool := isDigitChar c || ('a' ≤ c && c ≤ 'f')

/-- The class [0-9a-f:.\[\]] of the socket-address captures. -/
def isAddrChar (c : Char) : Bool :=
  isHexLowerChar c || c == ':' || c == '.' || c == '[' || c == ']'

/-! ### hex::encode / hex::decode (restricted to the 16-byte identifiers,
32 lowercase hex digits) -/

def hexDigitChar (n : Nat) : Char :=
  if n < 10 then Char.ofNat (48 + n) else Char.ofNat (87 + n)

def hexEncode : List (Fin 256) → List Char
  | [] => []
  | b :: bs => hexDigitChar (b.val / 16) :: hexDigitChar (b.val % 16) :: hexEncode bs

def hexCharVal (c : Char) : Nat :=
  if isDigitChar c then c.toNat - 48 else c.toNat - 87

def hexDecode : List Char → List (Fin 256)
  | c1 :: c2 :: rest =>
    ⟨(hexCharVal c1 * 16 + hexCharVal c2) % 256, Nat.mod_lt _ (by decide)⟩ ::
      hexDecode rest
  | _ => []

theorem hexEncode_length (l : List (Fin 256)) :
    (hexEncode l).length = 2 * l.length := by
  induction l with
  | nil => rfl
  | cons b bs ih => simp [hexEncode, ih]; omega

set_option maxRecDepth 4096 in
theorem hexByte_round (b : Fin 256) :
    (hexCharVal (hexDigitChar (b.val / 16)) * 16 +
        hexCharVal (hexDigitChar (b.val % 16))) % 256 = b.val := by
  revert b
  decide

set_option maxRecDepth 4096 in
theorem hexByte_class (b : Fin 256) :
    isHexLowerChar (hexDigitChar (b.val / 16)) = true ∧
      isHexLowerChar (hexDigitChar (b.val % 16)) = true := by
  revert b
  decide

theorem hexDecode_hexEncode (l : List (Fin 256)) : hexDecode (hexEncode l) = l := by
  induction l with
  | nil => rfl
  | cons b bs ih =>
    simp [hexEncode, hexDecode, ih]
    exact Fin.eq_of_val_eq (hexByte_round b)

theorem hexEncode_all_hex (l : List (Fin 256)) :
    (hexEncode l).all isHexLowerChar = true := by
  induction l with
  | nil => rfl
  | cons b bs ih =>
    simp [hexEncode, List.all_cons, ih, (hexByte_class b).1, (hexByte_class b).2]

/-! ### Decimal rendering and parsing of u128 timestamps -/

def digitChar (n : Nat) : Char := Char.ofNat (48 + n)

/-- Decimal rendering of a Nat (the Display of a Rust u128). -/
def natDigits (n : Nat) : List Char :=
  if _ : n < 10 then [digitChar n]
  else natDigits (n / 10) ++ [digitChar (n % 10)]
termination_by n
decreasing_by exact Nat.div_lt_self (by omega) (by omega)

/-- Value of a digit string, as accumulated by str::parse. -/
def digitsVal (l : List Char) : Nat :=
  l.foldl (fun a c => a * 10 + (c.toNat - 48)) 0

theorem digitChar_toNat {n : Nat} (h : n < 10) : (digitChar n).toNat = 48 + n := by
  interval_cases n <;> decide

theorem digitChar_isDigit {n : Nat} (h : n < 10) :
    isDigitChar (digitChar n) = true := by
  interval_cases n <;> decide

theorem digitsVal_append_singleton (l : List Char) (c : Char) :
    digitsVal (l ++ [c]) = digitsVal l * 10 + (c.toNat - 48) := by
  simp [digitsVal, List.foldl_append]

theorem digitsVal_natDigits (n : Nat) : digitsVal (natDigits n) = n := by
  induction n using Nat.strong_induction_on with
  | _ n ih =>
    by_cases h : n < 10
    · rw [natDigits, dif_pos h]
      simp [digitsVal, digitChar_toNat h]
    · rw [natDigits, dif_neg h]
      rw [digitsVal_append_singleton, ih (n / 10) (Nat.div_lt_self (by omega) (by omega)),
        digitChar_toNat (Nat.mod_lt _ (by omega))]
      omega

theorem natDigits_ne_nil (n : Nat) : natDigits n ≠ [] := by
  by_cases h : n < 10
  · rw [natDigits, dif_pos h]; simp
  · rw [natDigits, dif_neg h]; simp

theorem natDigits_all_digit (n : Nat) : (natDigits n).all isDigitChar = true := by
  induction n using Nat.strong_induction_on with
  | _ n ih =>
    by_cases h : n < 10
    · rw [natDigits, dif_pos h]
      simp [digitChar_isDigit h]
    · rw [natDigits, dif_neg h]
      simp only [List.all_append, Bool.and_eq_true]
      exact ⟨ih (n / 10) (Nat.div_lt_self (by omega) (by omega)),
        by simp [digitChar_isDigit (Nat.mod_lt _ (by omega))]⟩

/-! ### Chord wire codec (src/node/src/chord/protocol.rs)

The source matches each message against an anchored regular expression
and, on a match, decodes the hex identifier with `hex::decode` (which
cannot fail on the 32 lowercase hex digits guaranteed by the match) and
the socket address with `str::parse::<SocketAddr>` (whose failure is the
"invalid socket address" protocol error).  Each anchored regular
expression is transliterated into the equivalent direct parser; the
greedy captures become maximal take/takeWhile extractions.

SocketAddr formatting and parsing are std library behaviour and are
modelled abstractly: `displayAddr` stands for the Debug/Display
rendering used by `format!("{:?}", addr)`, `parseAddr` for
`str::parse::<SocketAddr>`. -/

/-- Outcome of matching one node-shaped tail `hex32 ++ "][" ++ addr ++ "];"`:
no regex match, a match whose address fails to parse, or a node. -/
inductive NodeParse (Addr : Type) where
  | nomatch
  | badAddr
  | node (n : Node Addr)

/-- Parses the text after a `NAME=[` literal against
`([0-9a-f]{32})\]\[([0-9a-f:.\[\]]+)\];$`. -/
def parseNodeTail {Addr : Type} (parseAddr : List Char → Option Addr)
    (s : List Char) : NodeParse Addr :=
  let h := s.take 32
  let rest := s.drop 32
  if h.length = 32 ∧ h.all isHexLowerChar = true then
    match matchLeft ("][".toList) rest with
    | some r2 =>
      match matchRight ("];".toList) r2 with
      | some a =>
        if a ≠ [] ∧ a.all isAddrChar = true then
          match parseAddr a with
          | some addr => .node ⟨hexDecode h, addr⟩
          | none => .badAddr
        else .nomatch
      | none => .nomatch
    | none => .nomatch
  else .nomatch

/-- ChordResponse::parse_successor_response_protocol. -/
def parse_successor_response_protocol {Addr : Type}
    (parseAddr : List Char → Option Addr) (s : List Char) :
    Except (List Char) (Option (ChordResponse Addr)) :=
  match matchLeft ("SUCCESSOR=[".toList) s with
  | some body =>
    match parseNodeTail parseAddr body with
    | .node n => .ok (some (.Successor n))
    | .badAddr => .error ("invalid response (invalid socket address)".toList)
    | .nomatch => .ok none
  | none => .ok none

/-- Matches one `\[hex32\]\[addr\]` entry of the successor-list pattern,
returning the raw hex and address captures and the unconsumed rest.  The
address capture is the maximal run of class characters minus its closing
bracket (the greedy `([0-9a-f:.\[\]]+)\]` of the regex: the class
excludes the separators `,` and `\x7d`, so the run always stops at the
entry boundary). -/
def parseNodeChunkRaw (s : List Char) :
    Option ((List Char × List Char) × List Char) :=
  match matchLeft ("[".toList) s with
  | some s1 =>
    let h := s1.take 32
    let rest := s1.drop 32
    if h.length = 32 ∧ h.all isHexLowerChar = true then
      match matchLeft ("][".toList) rest with
      | some s2 =>
        match (s2.takeWhile isAddrChar).reverse with
        | ']' :: arev =>
          if arev ≠ [] then
            some ((h, arev.reverse), s2.dropWhile isAddrChar)
          else none
        | _ => none
      | none => none
    else none
  | none => none

/-- One entry followed by a separator literal. -/
def parseChunkSep (sep : List Char) (s : List Char) :
    Option ((List Char × List Char) × List Char) :=
  match parseNodeChunkRaw s with
  | some (p, r) =>
    match matchLeft sep r with
    | some r2 => some (p, r2)
    | none => none
  | none => none

/-- Decodes one raw (hex, addr) capture pair into a Node. -/
def mkNode {Addr : Type} (parseAddr : List Char → Option Addr)
    (err : List Char) (p : List Char × List Char) :
    Except (List Char) (Node Addr) :=
  match parseAddr p.2 with
  | some a => .ok ⟨hexDecode p.1, a⟩
  | none => .error err

/-- ChordResponse::parse_successor_list_response_protocol: the anchored
five-entry pattern, then the five address parses in order. -/
def parse_successor_list_response_protocol {Addr : Type}
    (parseAddr : List Char → Option Addr) (s : List Char) :
    Except (List Char) (Option (ChordResponse Addr)) :=
  match matchLeft ("SUCCESSOR_LIST=\x7b".toList) s with
  | none => .ok none
  | some b0 =>
    match parseChunkSep (",".toList) b0 with
    | none => .ok none
    | some (p1, b1) =>
      match parseChunkSep (",".toList) b1 with
      | none => .ok none
      | some (p2, b2) =>
        match parseChunkSep (",".toList) b2 with
        | none => .ok none
        | some (p3, b3) =>
          match parseChunkSep (",".toList) b3 with
          | none => .ok none
          | some (p4, b4) =>
            match parseChunkSep ("\x7d;".toList) b4 with
            | some (p5, []) =>
              let err := "invalid response (invalid socket address)".toList
              match mkNode parseAddr err p1 with
              | .error e => .error e
              | .ok n1 =>
                match mkNode parseAddr err p2 with
                | .error e => .error e
                | .ok n2 =>
                  match mkNode parseAddr err p3 with
                  | .error e => .error e
                  | .ok n3 =>
                    match mkNode parseAddr err p4 with
                    | .error e => .error e
                    | .ok n4 =>
                      match mkNode parseAddr err p5 with
                      | .error e => .error e
                      | .ok n5 =>
                        .ok (some (.SuccessorList ⟨n1, n2, n3, n4, n5⟩))
            | _ => .ok none

/-- ChordResponse::parse_predecessor_response_protocol. -/
def parse_predecessor_response_protocol {Addr : Type}
    (parseAddr : List Char → Option Addr) (s : List Char) :
    Except (List Char) (Option (ChordResponse Addr)) :=
  if s = "PREDECESSOR=NONE;".toList then .ok (some (.Predecessor none))
  else
    match matchLeft ("PREDECESSOR=[".toList) s with
    | some body =>
      match parseNodeTail parseAddr body with
      | .node n => .ok (some (.Predecessor (some n)))
      | .badAddr => .error ("invalid response (invalid socket address)".toList)
      | .nomatch => .ok none
    | none => .ok none

/-- ChordResponse::parse_active_response_protocol. -/
def parse_active_response_protocol {Addr : Type} (s : List Char) :
    Option (ChordResponse Addr) :=
  if s = "ACTIVE;".toList then some .Active else none

/-- ChordResponse::parse_error_response_protocol (`^ERROR=\[(.+)\];$`;
the greedy capture is everything between the brackets; `.` excludes
newline). -/
def parse_error_response_protocol {Addr : Type} (s : List Char) :
    Option (ChordResponse Addr) :=
  match matchLeft ("ERROR=[".toList) s with
  | some r =>
    match matchRight ("];".toList) r with
    | some mid =>
      if mid ≠ [] ∧ mid.all (fun c => !(c == '\n')) = true then
        some (.Error mid)
      else none
    | none => none
  | none => none

/-- ChordResponse::parse (src/node/src/chord/protocol.rs lines 25-52):
the five sub-parsers in source order, propagating their errors. -/
def ChordResponse.parse {Addr : Type} (parseAddr : List Char → Option Addr)
    (s : List Char) : Except (List Char) (ChordResponse Addr) :=
  match parse_successor_response_protocol parseAddr s with
  | .error e => .error e
  | .ok (some r) => .ok r
  | .ok none =>
    match parse_successor_list_response_protocol parseAddr s with
    | .error e => .error e
    | .ok (some r) => .ok r
    | .ok none =>
      match parse_predecessor_response_protocol parseAddr s with
      | .error e => .error e
      | .ok (some r) => .ok r
      | .ok none =>
        match parse_active_response_protocol s with
        | some r => .ok r
        | none =>
          match parse_error_response_protocol s with
          | some r => .ok r
          | none => .error ("invalid response (protocol error)".toList)

/-- The `[{hash_id}][{:?}]` rendering of one node (used by the
SUCCESSOR_LIST serializer). -/
def nodeText {Addr : Type} (displayAddr : Addr → List Char)
    (n : Node Addr) : List Char :=
  "[".toList ++ hexEncode n.id ++ "][".toList ++ displayAddr n.publicAddr ++
    "]".toList

/-- ChordResponse::to_protocol_text (src/node/src/chord/protocol.rs
lines 151-180); the successor-list join with "," is unrolled over the
five entries. -/
def ChordResponse.toProtocolText {Addr : Type}
    (displayAddr : Addr → List Char) : ChordResponse Addr → List Char
  | .Successor n =>
    "SUCCESSOR=[".toList ++ hexEncode n.id ++ "][".toList ++
      displayAddr n.publicAddr ++ "];".toList
  | .SuccessorList l =>
    "SUCCESSOR_LIST=\x7b".toList ++
      nodeText displayAddr l.s0 ++ ",".toList ++
      nodeText displayAddr l.s1 ++ ",".toList ++
      nodeText displayAddr l.s2 ++ ",".toList ++
      nodeText displayAddr l.s3 ++ ",".toList ++
      nodeText displayAddr l.s4 ++ "\x7d;".toList
  | .Predecessor none => "PREDECESSOR=NONE;".toList
  | .Predecessor (some p) =>
    "PREDECESSOR=[".toList ++ hexEncode p.id ++ "][".toList ++
      displayAddr p.publicAddr ++ "];".toList
  | .Error msg => "ERROR=[".toList ++ msg ++ "];".toList
  | .Active => "ACTIVE;".toList

/-- ChordRequest::parse_find_successor_of_node_request_protocol. -/
def parse_find_successor_of_node_request_protocol {Addr : Type}
    (parseAddr : List Char → Option Addr) (s : List Char) :
    Except (List Char) (Option (ChordRequest Addr)) :=
  match matchLeft ("FIND_SUCCESSOR_OF_NODE=[".toList) s with
  | some body =>
    match parseNodeTail parseAddr body with
    | .node n => .ok (some (.FindSuccessorOfNode n))
    | .badAddr => .error ("invalid request (invalid socket address)".toList)
    | .nomatch => .ok none
  | none => .ok none

/-- ChordRequest::parse_notification_by_request_protocol. -/
def parse_notification_by_request_protocol {Addr : Type}
    (parseAddr : List Char → Option Addr) (s : List Char) :
    Except (List Char) (Option (ChordRequest Addr)) :=
  match matchLeft ("NOTIFICATION_BY=[".toList) s with
  | some body =>
    match parseNodeTail parseAddr body with
    | .node n => .ok (some (.NotificationBy n))
    | .badAddr => .error ("invalid request (invalid socket address)".toList)
    | .nomatch => .ok none
  | none => .ok none

/-- ChordRequest::parse (src/node/src/chord/protocol.rs lines 453-480). -/
def ChordRequest.parse {Addr : Type} (parseAddr : List Char → Option Addr)
    (s : List Char) : Except (List Char) (ChordRequest Addr) :=
  match parse_find_successor_of_node_request_protocol parseAddr s with
  | .error e => .error e
  | .ok (some r) => .ok r
  | .ok none =>
    if s = "GET_SUCCESSOR_LIST;".toList then .ok .GetSuccessorList
    else if s = "GET_PREDECESSOR;".toList then .ok .GetPredecessor
    else
      match parse_notification_by_request_protocol parseAddr s with
      | .error e => .error e
      | .ok (some r) => .ok r
      | .ok none =>
        if s = "CHECK_NODE;".toList then .ok .CheckNode
        else .error ("invalid request (protocol error)".toList)

/-- ChordRequest::to_protocol_text (src/node/src/chord/protocol.rs
lines 551-571). -/
def ChordRequest.toProtocolText {Addr : Type}
    (displayAddr : Addr → List Char) : ChordRequest Addr → List Char
  | .FindSuccessorOfNode n =>
    "FIND_SUCCESSOR_OF_NODE=[".toList ++ hexEncode n.id ++ "][".toList ++
      displayAddr n.publicAddr ++ "];".toList
  | .GetSuccessorList => "GET_SUCCESSOR_LIST;".toList
  | .GetPredecessor => "GET_PREDECESSOR;".toList
  | .NotificationBy n =>
    "NOTIFICATION_BY=[".toList ++ hexEncode n.id ++ "][".toList ++
      displayAddr n.publicAddr ++ "];".toList
  | .CheckNode => "CHECK_NODE;".toList

/-! ### Gossip wire codec (src/node/src/gossip/protocol.rs)

GossipRequest::parse returns Result, but the SHARE_DATA sub-parser calls
`request_datas[2].parse::<u128>().unwrap()` on the captured digit run:
when the digits overflow a u128 the parse returns Err and the unwrap
panics.  Parsing outcomes therefore distinguish ok, protocol error, and
panic. -/

inductive ParseResult (α : Type) where
  | ok (a : α)
  | err (msg : List Char)
  | panicked
deriving DecidableEq

/-- Sub-parser outcome: Rust Option<Self>, plus the reachable panic. -/
inductive SubParse (α : Type) where
  | found (a : α)
  | nomatch
  | panicked
deriving DecidableEq

/-- GossipRequest::parse_update_data_request_protocol
(`^UPDATE_DATA=\[(.+)\];$`). -/
def parse_update_data_request_protocol (s : List Char) : Option GossipRequest :=
  match matchLeft ("UPDATE_DATA=[".toList) s with
  | some r =>
    match matchRight ("];".toList) r with
    | some mid =>
      if mid ≠ [] ∧ mid.all (fun c => !(c == '\n')) = true then
        some (.UpdateData mid)
      else none
    | none => none
  | none => none

/-- Matches the interior of `NAME=[(.+)\]\[([0-9]+)\];` after the prefix
and the final "];" have been stripped: the timestamp capture is the
maximal all-digit suffix (the digit class cannot reach past the literal
"][", and the greedy data capture forces exactly this split), the data
capture is what precedes the "][" — nonempty and newline-free. -/
def parseDataTsTail (r : List Char) : Option (List Char × List Char) :=
  let rrev := r.reverse
  let drev := rrev.takeWhile isDigitChar
  match rrev.dropWhile isDigitChar with
  | '[' :: ']' :: c1rev =>
    if drev ≠ [] ∧ c1rev ≠ [] ∧ c1rev.all (fun c => !(c == '\n')) = true then
      some (c1rev.reverse, drev.reverse)
    else none
  | _ => none

/-- GossipRequest::parse_share_data_request_protocol
(src/node/src/gossip/protocol.rs lines 45-60): exact `SHARE_DATA=NONE;`
first, then `^SHARE_DATA=\[(.+)\]\[([0-9]+)\];$` with
`.parse::<u128>().unwrap()` on the timestamp capture — the unwrap panics
when the digits exceed u128::MAX. -/
def parse_share_data_request_protocol (s : List Char) : SubParse GossipRequest :=
  if s = "SHARE_DATA=NONE;".toList then .found (.ShareData none)
  else
    match matchLeft ("SHARE_DATA=[".toList) s with
    | some r0 =>
      match matchRight ("];".toList) r0 with
      | some r =>
        match parseDataTsTail r with
        | some (data, ds) =>
          if digitsVal ds ≤ RING_MAX_POSITION then
            .found (.ShareData (some ⟨data, digitsVal ds⟩))
          else .panicked
        | none => .nomatch
      | none => .nomatch
    | none => .nomatch

/-- GossipRequest::parse (src/node/src/gossip/protocol.rs lines 19-31). -/
def GossipRequest.parse (s : List Char) : ParseResult GossipRequest :=
  match parse_update_data_request_protocol s with
  | some r => .ok r
  | none =>
    match parse_share_data_request_protocol s with
    | .found r => .ok r
    | .panicked => .panicked
    | .nomatch => .err ("invalid request (protocol error)".toList)

/-- GossipResponse::parse_response_with_data_protocol
(`^RESPONSE=\[(.+)\]\[([0-9]+)\];$`, same u128 unwrap). -/
def parse_response_with_data_protocol (s : List Char) : SubParse GossipResponse :=
  match matchLeft ("RESPONSE=[".toList) s with
  | some r0 =>
    match matchRight ("];".toList) r0 with
    | some r =>
      match parseDataTsTail r with
      | some (data, ds) =>
        if digitsVal ds ≤ RING_MAX_POSITION then
          .found (.ResponseWithData ⟨data, digitsVal ds⟩)
        else .panicked
      | none => .nomatch
    | none => .nomatch
  | none => .nomatch

/-- GossipResponse::parse (src/node/src/gossip/protocol.rs lines
115-127): the exact IGNORE text first, then the data response pattern. -/
def GossipResponse.parse (s : List Char) : ParseResult GossipResponse :=
  if s = "RESPONSE=IGNORE;".toList then .ok .Ignore
  else
    match parse_response_with_data_protocol s with
    | .found r => .ok r
    | .panicked => .panicked
    | .nomatch => .err ("invalid response (protocol error)".toList)

/-- Serialization of gossip requests: UPDATE_DATA as formatted by the
sender client (src/client/src/main.rs, `format!("UPDATE_DATA=[{}];",
data)`), SHARE_DATA as formatted inline by the gossip request initiator
(src/node/src/gossip/request_initiator.rs,
`format!("SHARE_DATA=[{}][{}];", state.data, state.timestamp)` and
`"SHARE_DATA=NONE;"`). -/
def gossipRequestText : GossipRequest → List Char
  | .UpdateData d => "UPDATE_DATA=[".toList ++ d ++ "];".toList
  | .ShareData none => "SHARE_DATA=NONE;".toList
  | .ShareData (some st) =>
    "SHARE_DATA=[".toList ++ st.data ++ "][".toList ++
      natDigits st.timestamp ++ "];".toList

/-- Modelled from the spec: GossipResponse::to_protocol_text is absent
from src (it is only invoked by the partial-revision
global_request_handler); spec.md section 4.1 gives the response grammar
`RESPONSE=IGNORE;` and `RESPONSE=[<payload>][<u128-decimal>];`. -/
def gossipResponseText : GossipResponse → List Char
  | .Ignore => "RESPONSE=IGNORE;".toList
  | .ResponseWithData st =>
    "RESPONSE=[".toList ++ st.data ++ "][".toList ++
      natDigits st.timestamp ++ "];".toList

/-- C4 (code behaviour at the failing input): a SHARE_DATA text with a
non-numeric timestamp fails as a protocol error, but a SHARE_DATA text
whose 40-digit timestamp overflows u128 makes the parser panic
(`.parse::<u128>().unwrap()`), not return the protocol error. -/
theorem share_data_overflowing_timestamp_panics :
    GossipRequest.parse
        ("SHARE_DATA=[x][1111111111111111111111111111111111111111];".toList) =
      .panicked ∧
      GossipRequest.parse ("SHARE_DATA=[x][abc];".toList) =
        .err ("invalid request (protocol error)".toList) ∧
      (ParseResult.panicked : ParseResult GossipRequest) ≠
        ParseResult.err ("invalid request (protocol error)".toList) := by
  refine ⟨by decide, by decide, by decide⟩

/-! ### Round-trip of the codecs (well-formed messages) -/

/-- Well-formedness of a Node value: the identifier has the [u8; 16]
length.  (Byte range is enforced by the Fin 256 entry type.) -/
def Node.wf {Addr : Type} (n : Node Addr) : Prop := n.id.length = 16

instance {Addr : Type} (n : Node Addr) : Decidable n.wf := by
  unfold Node.wf; infer_instance

/-- A free string field that survives the greedy `(.+)` capture:
non-empty and newline-free. -/
def strOk (s : List Char) : Prop :=
  s ≠ [] ∧ s.all (fun c => !(c == '\n')) = true

instance (s : List Char) : Decidable (strOk s) := by
  unfold strOk; infer_instance

def State.wf (st : State) : Prop :=
  strOk st.data ∧ st.timestamp ≤ RING_MAX_POSITION

instance (st : State) : Decidable st.wf := by
  unfold State.wf; infer_instance

def SuccessorList5.wf {Addr : Type} (l : SuccessorList5 Addr) : Prop :=
  l.s0.wf ∧ l.s1.wf ∧ l.s2.wf ∧ l.s3.wf ∧ l.s4.wf

instance {Addr : Type} (l : SuccessorList5 Addr) : Decidable l.wf := by
  unfold SuccessorList5.wf; infer_instance

def ChordRequest.wf {Addr : Type} : ChordRequest Addr → Prop
  | .FindSuccessorOfNode n => n.wf
  | .NotificationBy n => n.wf
  | _ => True

instance {Addr : Type} (m : ChordRequest Addr) : Decidable m.wf := by
  cases m <;> (unfold ChordRequest.wf; infer_instance)

def ChordResponse.wf {Addr : Type} : ChordResponse Addr → Prop
  | .Successor n => n.wf
  | .SuccessorList l => l.wf
  | .Predecessor (some p) => p.wf
  | .Predecessor none => True
  | .Active => True
  | .Error msg => strOk msg

instance {Addr : Type} (m : ChordResponse Addr) : Decidable m.wf := by
  cases m with
  | Predecessor p => cases p <;> (unfold ChordResponse.wf; infer_instance)
  | _ => unfold ChordResponse.wf; infer_instance

def GossipRequest.wf : GossipRequest → Prop
  | .UpdateData d => strOk d
  | .ShareData (some st) => st.wf
  | .ShareData none => True

instance (m : GossipRequest) : Decidable m.wf := by
  cases m with
  | ShareData s => cases s <;> (unfold GossipRequest.wf; infer_instance)
  | _ => unfold GossipRequest.wf; infer_instance

def GossipResponse.wf : GossipResponse → Prop
  | .Ignore => True
  | .ResponseWithData st => st.wf

instance (m : GossipResponse) : Decidable m.wf := by
  cases m <;> (unfold GossipResponse.wf; infer_instance)

theorem all_reverse_eq (p : Char → Bool) (l : List Char) :
    l.reverse.all p = l.all p := by
  induction l with
  | nil => rfl
  | cons c l ih => simp [List.all_append, ih, Bool.and_comm]

/-- The node-shaped tail round-trips onto the node it came from. -/
theorem parseNodeTail_round {Addr : Type}
    (displayAddr : Addr → List Char) (parseAddr : List Char → Option Addr)
    (haddr : ∀ a, parseAddr (displayAddr a) = some a)
    (hdne : ∀ a, displayAddr a ≠ [])
    (hdcls : ∀ a, (displayAddr a).all isAddrChar = true)
    (n : Node Addr) (hwf : n.wf) :
    parseNodeTail parseAddr
        (hexEncode n.id ++ ("][".toList ++ (displayAddr n.publicAddr ++
          "];".toList))) = .node n := by
  have hlen : (hexEncode n.id).length = 32 := by
    rw [hexEncode_length, hwf]
  have htake :
      (hexEncode n.id ++ ("][".toList ++ (displayAddr n.publicAddr ++
        "];".toList))).take 32 = hexEncode n.id := by
    rw [← hlen, List.take_left]
  have hdrop :
      (hexEncode n.id ++ ("][".toList ++ (displayAddr n.publicAddr ++
        "];".toList))).drop 32 =
        "][".toList ++ (displayAddr n.publicAddr ++ "];".toList) := by
    rw [← hlen, List.drop_left]
  unfold parseNodeTail
  simp only [List.append_assoc]
  rw [htake, hdrop]
  simp only [hlen, hexEncode_all_hex, and_self, if_true, matchLeft_append,
    matchRight_append, hdne n.publicAddr, hdcls n.publicAddr, ne_eq,
    not_false_iff, haddr n.publicAddr, hexDecode_hexEncode]

theorem parseNodeChunkRaw_round {Addr : Type}
    (displayAddr : Addr → List Char)
    (hdne : ∀ a, displayAddr a ≠ [])
    (hdcls : ∀ a, (displayAddr a).all isAddrChar = true)
    (n : Node Addr) (hwf : n.wf) (c : Char) (hc : isAddrChar c = false)
    (rest : List Char) :
    parseNodeChunkRaw (nodeText displayAddr n ++ (c :: rest)) =
      some ((hexEncode n.id, displayAddr n.publicAddr), c :: rest) := by
  have hshape : nodeText displayAddr n ++ (c :: rest) =
      "[".toList ++ (hexEncode n.id ++ ("][".toList ++
        ((displayAddr n.publicAddr ++ [']']) ++ (c :: rest)))) := by
    simp [nodeText, List.append_assoc]
  have hlen : (hexEncode n.id).length = 32 := by
    rw [hexEncode_length, hwf]
  have htake :
      (hexEncode n.id ++ ("][".toList ++
        ((displayAddr n.publicAddr ++ [']']) ++ (c :: rest)))).take 32 =
        hexEncode n.id := by
    rw [← hlen, List.take_left]
  have hdrop :
      (hexEncode n.id ++ ("][".toList ++
        ((displayAddr n.publicAddr ++ [']']) ++ (c :: rest)))).drop 32 =
        "][".toList ++ ((displayAddr n.publicAddr ++ [']']) ++ (c :: rest)) := by
    rw [← hlen, List.drop_left]
  have hall : (displayAddr n.publicAddr ++ [']']).all isAddrChar = true := by
    simp [List.all_append, hdcls n.publicAddr,
      show isAddrChar ']' = true from by decide]
  have htw := takeWhile_append_stop isAddrChar
    (displayAddr n.publicAddr ++ [']']) c rest hall hc
  rw [hshape]
  unfold parseNodeChunkRaw
  simp only [matchLeft_append]
  rw [htake, hdrop]
  simp only [hlen, hexEncode_all_hex, and_self, if_true, matchLeft_append]
  rw [htw.1, htw.2]
  simp [List.reverse_append, hdne n.publicAddr]

theorem parseChunkSep_comma_round {Addr : Type}
    (displayAddr : Addr → List Char)
    (hdne : ∀ a, displayAddr a ≠ [])
    (hdcls : ∀ a, (displayAddr a).all isAddrChar = true)
    (n : Node Addr) (hwf : n.wf) (rest : List Char) :
    parseChunkSep (",".toList) (nodeText displayAddr n ++ (',' :: rest)) =
      some ((hexEncode n.id, displayAddr n.publicAddr), rest) := by
  unfold parseChunkSep
  rw [parseNodeChunkRaw_round displayAddr hdne hdcls n hwf ',' (by decide) rest]
  simp [matchLeft]

theorem parseChunkSep_end_round {Addr : Type}
    (displayAddr : Addr → List Char)
    (hdne : ∀ a, displayAddr a ≠ [])
    (hdcls : ∀ a, (displayAddr a).all isAddrChar = true)
    (n : Node Addr) (hwf : n.wf) :
    parseChunkSep ("\x7d;".toList)
        (nodeText displayAddr n ++ ('}' :: [';'])) =
      some ((hexEncode n.id, displayAddr n.publicAddr), []) := by
  unfold parseChunkSep
  rw [parseNodeChunkRaw_round displayAddr hdne hdcls n hwf '}' (by decide) [';']]
  simp [matchLeft]

theorem mkNode_round {Addr : Type}
    (displayAddr : Addr → List Char) (parseAddr : List Char → Option Addr)
    (haddr : ∀ a, parseAddr (displayAddr a) = some a)
    (err : List Char) (n : Node Addr) :
    mkNode parseAddr err (hexEncode n.id, displayAddr n.publicAddr) = .ok n := by
  simp [mkNode, haddr, hexDecode_hexEncode]

theorem round_chord_successor {Addr : Type}
    (displayAddr : Addr → List Char) (parseAddr : List Char → Option Addr)
    (haddr : ∀ a, parseAddr (displayAddr a) = some a)
    (hdne : ∀ a, displayAddr a ≠ [])
    (hdcls : ∀ a, (displayAddr a).all isAddrChar = true)
    (n : Node Addr) (hwf : n.wf) :
    ChordResponse.parse parseAddr
        (ChordResponse.toProtocolText displayAddr (.Successor n)) =
      .ok (.Successor n) := by
  have hn := parseNodeTail_round displayAddr parseAddr haddr hdne hdcls n hwf
  unfold ChordResponse.toProtocolText ChordResponse.parse
    parse_successor_response_protocol
  simp only [List.append_assoc, matchLeft_append, hn]

theorem round_chord_successor_list {Addr : Type}
    (displayAddr : Addr → List Char) (parseAddr : List Char → Option Addr)
    (haddr : ∀ a, parseAddr (displayAddr a) = some a)
    (hdne : ∀ a, displayAddr a ≠ [])
    (hdcls : ∀ a, (displayAddr a).all isAddrChar = true)
    (l : SuccessorList5 Addr) (hwf : l.wf) :
    ChordResponse.parse parseAddr
        (ChordResponse.toProtocolText displayAddr (.SuccessorList l)) =
      .ok (.SuccessorList l) := by
  obtain ⟨h0, h1, h2, h3, h4⟩ := hwf
  have e : ChordResponse.toProtocolText displayAddr (.SuccessorList l) =
      "SUCCESSOR_LIST=\x7b".toList ++ (nodeText displayAddr l.s0 ++ (',' ::
        (nodeText displayAddr l.s1 ++ (',' :: (nodeText displayAddr l.s2 ++
          (',' :: (nodeText displayAddr l.s3 ++ (',' ::
            (nodeText displayAddr l.s4 ++ ('}' :: [';'])))))))))) := by
    simp [ChordResponse.toProtocolText, List.append_assoc,
      show ",".toList = [','] from rfl, show "\x7d;".toList = ['}', ';'] from rfl]
  have rej1 : parse_successor_response_protocol parseAddr
      (ChordResponse.toProtocolText displayAddr (.SuccessorList l)) = .ok none := by
    rw [e]
    unfold parse_successor_response_protocol
    rw [matchLeft_reject _ _ _ (by decide)]
  unfold ChordResponse.parse
  rw [rej1]
  unfold parse_successor_list_response_protocol
  rw [e]
  simp only [matchLeft_append]
  rw [parseChunkSep_comma_round displayAddr hdne hdcls l.s0 h0 _]
  simp only []
  rw [parseChunkSep_comma_round displayAddr hdne hdcls l.s1 h1 _]
  simp only []
  rw [parseChunkSep_comma_round displayAddr hdne hdcls l.s2 h2 _]
  simp only []
  rw [parseChunkSep_comma_round displayAddr hdne hdcls l.s3 h3 _]
  simp only []
  rw [parseChunkSep_end_round displayAddr hdne hdcls l.s4 h4]
  simp only [mkNode_round displayAddr parseAddr haddr]

theorem round_chord_predecessor_none {Addr : Type}
    (displayAddr : Addr → List Char) (parseAddr : List Char → Option Addr) :
    ChordResponse.parse parseAddr
        (ChordResponse.toProtocolText displayAddr (.Predecessor none)) =
      .ok (.Predecessor none) := by
  unfold ChordResponse.toProtocolText ChordResponse.parse
    parse_successor_response_protocol parse_successor_list_response_protocol
    parse_predecessor_response_protocol
  rw [show matchLeft ("SUCCESSOR=[".toList) ("PREDECESSOR=NONE;".toList) = none
      from by decide,
    show matchLeft ("SUCCESSOR_LIST=\x7b".toList) ("PREDECESSOR=NONE;".toList) =
      none from by decide]
  simp

theorem round_chord_predecessor_some {Addr : Type}
    (displayAddr : Addr → List Char) (parseAddr : List Char → Option Addr)
    (haddr : ∀ a, parseAddr (displayAddr a) = some a)
    (hdne : ∀ a, displayAddr a ≠ [])
    (hdcls : ∀ a, (displayAddr a).all isAddrChar = true)
    (n : Node Addr) (hwf : n.wf) :
    ChordResponse.parse parseAddr
        (ChordResponse.toProtocolText displayAddr (.Predecessor (some n))) =
      .ok (.Predecessor (some n)) := by
  have hn := parseNodeTail_round displayAddr parseAddr haddr hdne hdcls n hwf
  unfold ChordResponse.toProtocolText ChordResponse.parse
    parse_successor_response_protocol parse_successor_list_response_protocol
    parse_predecessor_response_protocol
  simp only [List.append_assoc]
  rw [matchLeft_reject _ _ _
      (show ("SUCCESSOR=[".toList).take ("PREDECESSOR=[".toList).length ≠
        ("PREDECESSOR=[".toList).take ("SUCCESSOR=[".toList).length from by decide),
    matchLeft_reject _ _ _
      (show ("SUCCESSOR_LIST=\x7b".toList).take ("PREDECESSOR=[".toList).length ≠
        ("PREDECESSOR=[".toList).take ("SUCCESSOR_LIST=\x7b".toList).length from
        by decide),
    if_neg (append_ne_lit _ _ _ (by decide))]
  simp only [matchLeft_append, hn]

theorem round_chord_active {Addr : Type}
    (displayAddr : Addr → List Char) (parseAddr : List Char → Option Addr) :
    ChordResponse.parse parseAddr
        (ChordResponse.toProtocolText displayAddr .Active) = .ok .Active := by
  unfold ChordResponse.toProtocolText ChordResponse.parse
    parse_successor_response_protocol parse_successor_list_response_protocol
    parse_predecessor_response_protocol parse_active_response_protocol
  rw [show matchLeft ("SUCCESSOR=[".toList) ("ACTIVE;".toList) = none
      from by decide,
    show matchLeft ("SUCCESSOR_LIST=\x7b".toList) ("ACTIVE;".toList) = none
      from by decide]
  simp only []
  rw [if_neg (show ¬ ("ACTIVE;".toList = "PREDECESSOR=NONE;".toList)
      from by decide),
    show matchLeft ("PREDECESSOR=[".toList) ("ACTIVE;".toList) = none
      from by decide]
  simp

theorem round_chord_error {Addr : Type}
    (displayAddr : Addr → List Char) (parseAddr : List Char → Option Addr)
    (msg : List Char) (hmsg : strOk msg) :
    ChordResponse.parse parseAddr
        (ChordResponse.toProtocolText displayAddr (.Error msg)) =
      .ok (.Error msg) := by
  unfold ChordResponse.toProtocolText ChordResponse.parse
    parse_successor_response_protocol parse_successor_list_response_protocol
    parse_predecessor_response_protocol parse_active_response_protocol
    parse_error_response_protocol
  simp only [List.append_assoc]
  rw [matchLeft_reject _ _ _
      (show ("SUCCESSOR=[".toList).take ("ERROR=[".toList).length ≠
        ("ERROR=[".toList).take ("SUCCESSOR=[".toList).length from by decide),
    matchLeft_reject _ _ _
      (show ("SUCCESSOR_LIST=\x7b".toList).take ("ERROR=[".toList).length ≠
        ("ERROR=[".toList).take ("SUCCESSOR_LIST=\x7b".toList).length from
        by decide),
    if_neg (append_ne_lit _ _ _ (by decide)),
    matchLeft_reject _ _ _
      (show ("PREDECESSOR=[".toList).take ("ERROR=[".toList).length ≠
        ("ERROR=[".toList).take ("PREDECESSOR=[".toList).length from by decide),
    if_neg (append_ne_lit _ _ _ (by decide)),
    matchLeft_append]
  simp only [matchRight_append, hmsg.1, hmsg.2, ne_eq, not_false_iff,
    and_self, if_true]

theorem round_chord_request_find {Addr : Type}
    (displayAddr : Addr → List Char) (parseAddr : List Char → Option Addr)
    (haddr : ∀ a, parseAddr (displayAddr a) = some a)
    (hdne : ∀ a, displayAddr a ≠ [])
    (hdcls : ∀ a, (displayAddr a).all isAddrChar = true)
    (n : Node Addr) (hwf : n.wf) :
    ChordRequest.parse parseAddr
        (ChordRequest.toProtocolText displayAddr (.FindSuccessorOfNode n)) =
      .ok (.FindSuccessorOfNode n) := by
  have hn := parseNodeTail_round displayAddr parseAddr haddr hdne hdcls n hwf
  unfold ChordRequest.toProtocolText ChordRequest.parse
    parse_find_successor_of_node_request_protocol
  simp only [List.append_assoc, matchLeft_append, hn]

theorem round_chord_request_get_successor_list {Addr : Type}
    (displayAddr : Addr → List Char) (parseAddr : List Char → Option Addr) :
    ChordRequest.parse parseAddr
        (ChordRequest.toProtocolText displayAddr .GetSuccessorList) =
      .ok .GetSuccessorList := by
  unfold ChordRequest.toProtocolText ChordRequest.parse
    parse_find_successor_of_node_request_protocol
  rw [show matchLeft ("FIND_SUCCESSOR_OF_NODE=[".toList)
      ("GET_SUCCESSOR_LIST;".toList) = none from by decide]
  simp

theorem round_chord_request_get_predecessor {Addr : Type}
    (displayAddr : Addr → List Char) (parseAddr : List Char → Option Addr) :
    ChordRequest.parse parseAddr
        (ChordRequest.toProtocolText displayAddr .GetPredecessor) =
      .ok .GetPredecessor := by
  unfold ChordRequest.toProtocolText ChordRequest.parse
    parse_find_successor_of_node_request_protocol
  rw [show matchLeft ("FIND_SUCCESSOR_OF_NODE=[".toList)
      ("GET_PREDECESSOR;".toList) = none from by decide]
  simp

theorem round_chord_request_notification {Addr : Type}
    (displayAddr : Addr → List Char) (parseAddr : List Char → Option Addr)
    (haddr : ∀ a, parseAddr (displayAddr a) = some a)
    (hdne : ∀ a, displayAddr a ≠ [])
    (hdcls : ∀ a, (displayAddr a).all isAddrChar = true)
    (n : Node Addr) (hwf : n.wf) :
    ChordRequest.parse parseAddr
        (ChordRequest.toProtocolText displayAddr (.NotificationBy n)) =
      .ok (.NotificationBy n) := by
  have hn := parseNodeTail_round displayAddr parseAddr haddr hdne hdcls n hwf
  unfold ChordRequest.toProtocolText ChordRequest.parse
    parse_find_successor_of_node_request_protocol
    parse_notification_by_request_protocol
  simp only [List.append_assoc]
  rw [matchLeft_reject _ _ _
      (show ("FIND_SUCCESSOR_OF_NODE=[".toList).take
          ("NOTIFICATION_BY=[".toList).length ≠
        ("NOTIFICATION_BY=[".toList).take
          ("FIND_SUCCESSOR_OF_NODE=[".toList).length from by decide)]
  simp only []
  rw [if_neg (append_ne_lit _ _ _ (by decide)),
    if_neg (append_ne_lit _ _ _ (by decide)),
    matchLeft_append]
  simp only [hn]

theorem round_chord_request_check_node {Addr : Type}
    (displayAddr : Addr → List Char) (parseAddr : List Char → Option Addr) :
    ChordRequest.parse parseAddr
        (ChordRequest.toProtocolText displayAddr .CheckNode) = .ok .CheckNode := by
  unfold ChordRequest.toProtocolText ChordRequest.parse
    parse_find_successor_of_node_request_protocol
    parse_notification_by_request_protocol
  rw [show matchLeft ("FIND_SUCCESSOR_OF_NODE=[".toList)
      ("CHECK_NODE;".toList) = none from by decide]
  simp only []
  rw [if_neg (show ¬ ("CHECK_NODE;".toList = "GET_SUCCESSOR_LIST;".toList)
      from by decide),
    if_neg (show ¬ ("CHECK_NODE;".toList = "GET_PREDECESSOR;".toList)
      from by decide),
    show matchLeft ("NOTIFICATION_BY=[".toList) ("CHECK_NODE;".toList) = none
      from by decide]
  simp

theorem parseDataTsTail_round (data : List Char) (hdata : strOk data)
    (ts : Nat) :
    parseDataTsTail (data ++ ("][".toList ++ natDigits ts)) =
      some (data, natDigits ts) := by
  have hrev : (data ++ ("][".toList ++ natDigits ts)).reverse =
      (natDigits ts).reverse ++ ('[' :: (']' :: data.reverse)) := by
    simp [List.reverse_append]
  have hall : ((natDigits ts).reverse).all isDigitChar = true := by
    rw [all_reverse_eq]; exact natDigits_all_digit ts
  have htw := takeWhile_append_stop isDigitChar ((natDigits ts).reverse) '['
    (']' :: data.reverse) hall (by decide)
  unfold parseDataTsTail
  rw [hrev]
  simp only [htw.1, htw.2]
  simp [natDigits_ne_nil, hdata.1, hdata.2, all_reverse_eq]

theorem round_gossip_update (d : List Char) (hd : strOk d) :
    GossipRequest.parse (gossipRequestText (.UpdateData d)) =
      .ok (.UpdateData d) := by
  unfold gossipRequestText GossipRequest.parse
    parse_update_data_request_protocol
  simp only [List.append_assoc, matchLeft_append, matchRight_append,
    hd.1, hd.2, ne_eq, not_false_iff, and_self, if_true]

theorem round_gossip_share_none :
    GossipRequest.parse (gossipRequestText (.ShareData none)) =
      .ok (.ShareData none) := by
  decide

theorem round_gossip_share_some (st : State) (hst : st.wf) :
    GossipRequest.parse (gossipRequestText (.ShareData (some st))) =
      .ok (.ShareData (some st)) := by
  unfold gossipRequestText GossipRequest.parse
    parse_update_data_request_protocol parse_share_data_request_protocol
  simp only [List.append_assoc]
  rw [matchLeft_reject _ _ _
      (show ("UPDATE_DATA=[".toList).take ("SHARE_DATA=[".toList).length ≠
        ("SHARE_DATA=[".toList).take ("UPDATE_DATA=[".toList).length from
        by decide)]
  simp only []
  rw [if_neg (append_ne_lit _ _ _ (by decide)), matchLeft_append,
    show st.data ++ ("][".toList ++ (natDigits st.timestamp ++ "];".toList)) =
      (st.data ++ ("][".toList ++ natDigits st.timestamp)) ++ "];".toList from
      by simp]
  simp only [matchRight_append, parseDataTsTail_round st.data hst.1 st.timestamp]
  simp only [digitsVal_natDigits, hst.2, if_true]

theorem round_gossip_response_ignore :
    GossipResponse.parse (gossipResponseText .Ignore) = .ok .Ignore := by
  decide

theorem round_gossip_response_data (st : State) (hst : st.wf) :
    GossipResponse.parse (gossipResponseText (.ResponseWithData st)) =
      .ok (.ResponseWithData st) := by
  unfold gossipResponseText GossipResponse.parse
    parse_response_with_data_protocol
  simp only [List.append_assoc]
  rw [if_neg (append_ne_lit _ _ _ (by decide)), matchLeft_append,
    show st.data ++ ("][".toList ++ (natDigits st.timestamp ++ "];".toList)) =
      (st.data ++ ("][".toList ++ natDigits st.timestamp)) ++ "];".toList from
      by simp]
  simp only [matchRight_append, parseDataTsTail_round st.data hst.1 st.timestamp]
  simp only [digitsVal_natDigits, hst.2, if_true]

instance {E A : Type} [DecidableEq E] [DecidableEq A] (a b : Except E A) :
    Decidable (a = b) := by
  cases a with
  | ok x =>
    cases b with
    | ok y => exact decidable_of_iff (x = y) (by simp)
    | error f => exact isFalse (by simp)
  | error e =>
    cases b with
    | ok y => exact isFalse (by simp)
    | error f => exact decidable_of_iff (e = f) (by simp)

/-- C5 counterexample: an ERROR response with an empty message serializes
to "ERROR=[];", whose parse is the protocol error (the regex capture
`(.+)` needs at least one character), not the original message — so the
claimed round-trip fails for ERROR with an arbitrary message string.
The address type is instantiated with a one-point model of SocketAddr. -/
theorem codec_round_trip_counterexample :
    ChordResponse.parse (fun s => if s = "0.0.0.0:1".toList
        then some () else none)
      (ChordResponse.toProtocolText (fun _ : Unit => "0.0.0.0:1".toList)
        (.Error [])) ≠ .ok (.Error []) := by
  decide

/-- C5 (amended): parse(serialize(m)) = m for every well-formed Chord and
Gossip request and response whose free string fields (ERROR message,
gossip data payload) are non-empty and newline-free and whose gossip
timestamps fit in u128, over any address model whose rendering is
non-empty, stays in the regex address class and is inverted by address
parsing (the behaviour of std SocketAddr Display/FromStr). -/
theorem codec_round_trip {Addr : Type}
    (displayAddr : Addr → List Char) (parseAddr : List Char → Option Addr)
    (haddr : ∀ a, parseAddr (displayAddr a) = some a)
    (hdne : ∀ a, displayAddr a ≠ [])
    (hdcls : ∀ a, (displayAddr a).all isAddrChar = true) :
    (∀ m : ChordRequest Addr, m.wf →
        ChordRequest.parse parseAddr
          (ChordRequest.toProtocolText displayAddr m) = .ok m) ∧
      (∀ m : ChordResponse Addr, m.wf →
        ChordResponse.parse parseAddr
          (ChordResponse.toProtocolText displayAddr m) = .ok m) ∧
      (∀ m : GossipRequest, m.wf →
        GossipRequest.parse (gossipRequestText m) = .ok m) ∧
      (∀ m : GossipResponse, m.wf →
        GossipResponse.parse (gossipResponseText m) = .ok m) := by
  refine ⟨?_, ?_, ?_, ?_⟩
  · intro m hm
    cases m with
    | FindSuccessorOfNode n =>
      exact round_chord_request_find displayAddr parseAddr haddr hdne hdcls n hm
    | GetSuccessorList =>
      exact round_chord_request_get_successor_list displayAddr parseAddr
    | GetPredecessor =>
      exact round_chord_request_get_predecessor displayAddr parseAddr
    | NotificationBy n =>
      exact round_chord_request_notification displayAddr parseAddr haddr hdne
        hdcls n hm
    | CheckNode =>
      exact round_chord_request_check_node displayAddr parseAddr
  · intro m hm
    cases m with
    | Successor n =>
      exact round_chord_successor displayAddr parseAddr haddr hdne hdcls n hm
    | SuccessorList l =>
      exact round_chord_successor_list displayAddr parseAddr haddr hdne hdcls
        l hm
    | Predecessor p =>
      cases p with
      | none => exact round_chord_predecessor_none displayAddr parseAddr
      | some n =>
        exact round_chord_predecessor_some displayAddr parseAddr haddr hdne
          hdcls n hm
    | Active => exact round_chord_active displayAddr parseAddr
    | Error msg => exact round_chord_error displayAddr parseAddr msg hm
  · intro m hm
    cases m with
    | UpdateData d => exact round_gossip_update d hm
    | ShareData s =>
      cases s with
      | none => exact round_gossip_share_none
      | some st => exact round_gossip_share_some st hm
  · intro m hm
    cases m with
    | Ignore => exact round_gossip_response_ignore
    | ResponseWithData st => exact round_gossip_response_data st hm

/-- C5 witness: over the one-point address model, a SUCCESSOR response
carrying a 16-byte identifier round-trips. -/
theorem codec_round_trip_witness :
    ChordResponse.parse (fun s => if s = "0.0.0.0:1".toList
        then some () else none)
      (ChordResponse.toProtocolText (fun _ : Unit => "0.0.0.0:1".toList)
        (.Successor ⟨List.replicate 16 0, ()⟩)) =
      .ok (.Successor ⟨List.replicate 16 0, ()⟩) :=
  (codec_round_trip (fun _ : Unit => "0.0.0.0:1".toList)
      (fun s => if s = "0.0.0.0:1".toList then some () else none)
      (by intro a; cases a; decide)
      (by intro a; cases a; decide)
      (by intro a; cases a; decide)).2.1
    (.Successor ⟨List.replicate 16 0, ()⟩) (by decide)
